import Mathlib

/-!
Shallow embedding of the decision core of the kasoutuuka-bot trading agent,
together with theorems settling the frozen claims C1-C10.

Sources embedded (python -> Lean, floats modelled as rationals):
  * src/src/config.py            -- StrategyConfig / STRATEGY
  * src/src/flow_filters.py      -- compute_flow_metrics, compute_wall_pressure
  * src/src/flow_filters_dynamic.py
        -- classify_regime, guard helpers, decide_entry_guard_long / _short
  * src/src/exit_engine.py       -- evaluate
  * src/src/main.py              -- dynamic cooldown block, cooldown override,
                                    strong-flow override, dedup skeleton of run_loop
  * src/edge_signal_pack/indicators.py -- FlowBuckets.ofi_zscore, CVDTracker
  * src/edge_signal_pack/strategy.py   -- decide_signal
  * src/edge_signal_pack/signal_engine.py -- metrics publication model

Reason strings returned by guards keep the literal constant parts of the
source strings; numeric interpolations (f-string formatting of floats) are
elided since no claim depends on them.
-/

namespace KBot

/-- Python's built-in `round` (banker's rounding, half to even) on a rational. -/
def pyRound (x : ℚ) : ℤ :=
  let f : ℤ := Int.floor x
  let r : ℚ := x - (f : ℚ)
  if r < 1/2 then f
  else if 1/2 < r then f + 1
  else if f % 2 = 0 then f else f + 1

/-- numpy.median of a list (sort ascending; middle element for odd length,
mean of the two middle elements for even length).  Only ever applied to
non-empty lists by the embedded code. -/
def npMedian (xs : List ℚ) : ℚ :=
  let s := xs.mergeSort (fun a b => decide (a ≤ b))
  let n := xs.length
  if n = 0 then 0
  else if n % 2 = 1 then s.getD (n / 2) 0
  else (s.getD (n / 2 - 1) 0 + s.getD (n / 2) 0) / 2

/-- the local `_median` helper of run_loop (src/src/main.py lines 1863-1865):
`xs = sorted(xs); return xs[len(xs)//2] if xs else default`
(`default` is the current ATR `a` at the call site). -/
def runLoopMedian (xs : List ℚ) (dflt : ℚ) : ℚ :=
  let s := xs.mergeSort (fun a b => decide (a ≤ b))
  if xs.length = 0 then dflt else s.getD (xs.length / 2) 0

/-- src/src/config.py `StrategyConfig`, restricted to the fields the embedded
functions read.  Field defaults are the config.py values; attributes that the
code reads through `getattr(S, name, default)` but that config.py does not
define are resolved to the call-site default directly in the embedded
functions (the runtime `STRATEGY` object is a frozen dataclass, so those
lookups always take the default). -/
structure StrategyConfig where
  atrp_trend_min : ℚ := 6/1000
  adx_trend_min : ℚ := 16
  atrp_range_max : ℚ := 8/1000
  sma_confluence_atr_k : ℚ := 3/10
  entry_pullback_atr : ℚ := 1/4
  entry_pullback_atr_trend_min : ℚ := 35/100
  flow_window_short_sec : ℤ := 90
  flow_window_long_sec : ℤ := 180
  flow_min_imbalance : ℚ := 1/4
  flow_min_count : ℤ := 180
  flow_min_consec : ℤ := 10
  flow_min_net_usd : ℚ := 100000
  pullback_override_rateS : ℚ := 12000
  pullback_override_netS : ℚ := 120000
  entry_max_over_sma10_atr_trend : ℚ := 3/2
  entry_max_over_sma10_atr_neutral : ℚ := 7/10
  entry_max_over_sma10_atr_range : ℚ := 55/100
  cap_bonus_enabled : Bool := true
  cap_bonus_votes2 : ℚ := 5/100
  cap_bonus_per_vote : ℚ := 8/100
  ofi_z_boost_thr : ℚ := 2
  cap_bonus_ofi_z_k : ℚ := 6/100
  cap_bonus_neutral_max : ℚ := 45/100
  cap_bonus_range_max : ℚ := 3/10
  use_momentum_pullback_override : Bool := true
  momentum_votes_min : ℤ := 2
  momentum_extra_atr_neutral : ℚ := 3/10
  use_orderbook_filter : Bool := true
  ob_depth : ℤ := 50
  ob_ask_bid_max_trend : ℚ := 14/10
  ob_ask_bid_max_neutral : ℚ := 93/100
  ob_ask_bid_max_range : ℚ := 8/10
  ob_relax_band : ℚ := 8/100
  ob_override_rateS : ℚ := 6000
  ob_override_netS : ℚ := 50000
  use_pivot_ob_override : Bool := true
  pivot_max_dist_atr : ℚ := 12/10
  pivot_ob_max_ratio : ℚ := 3/4
  pivot_min_ofi_z : ℚ := 12/10
  require_close_gt_sma10_long : Bool := true
  require_close_lt_sma10_short : Bool := true
  rsi_long_min : ℚ := 55
  rsi_short_max : ℚ := 50
  guard_ma_type : String := "SMA10"
  guard_buffer_atr_base : ℚ := 1/10
  guard_buffer_mul_trend : ℚ := 1
  guard_buffer_mul_neutral : ℚ := 6/10
  guard_buffer_mul_range : ℚ := 8/10
  use_dynamic_buffer_by_atrp : Bool := true
  guard_buffer_atrp_ref : ℚ := 1/100
  guard_buffer_atrp_slope : ℚ := 1
  guard_buffer_atr_cap : ℚ := 3/10
  guard_disable_short_in_trend_down : Bool := true
  guard_disable_long_in_trend_up : Bool := true
  entry_cooldown_min : ℤ := 6
  cooldown_override_ofi_z : ℚ := 32/10
  cooldown_override_cons : ℤ := 10
  cooldown_override_votes : ℤ := 5
  cooldown_override_adx_min : ℚ := 22
  regime_override_ofi_z : ℚ := 32/10
  regime_override_cons : ℤ := 10
  regime_override_votes : ℤ := 5
  ofi_z_clip : ℚ := 6

/-- the process-wide frozen `STRATEGY` object of src/src/config.py. -/
def STRATEGY : StrategyConfig := {}

/-- a guard/exit context dictionary (the `ctx : Dict[str, Any]` threaded
through flow_filters_dynamic.py and exit_engine.py).  Every key the embedded
code may read is a field; `none` models an absent key, so `ctx.get(k, d)`
becomes `(ctx.k).getD d`. -/
structure Ctx where
  price : Option ℚ := none
  sma10 : Option ℚ := none
  sma20 : Option ℚ := none
  sma50 : Option ℚ := none
  sma200 : Option ℚ := none
  ema9 : Option ℚ := none
  ema10 : Option ℚ := none
  ema21 : Option ℚ := none
  ema50 : Option ℚ := none
  atr : Option ℚ := none
  adx : Option ℚ := none
  adx_15m : Option ℚ := none
  adx15 : Option ℚ := none
  adx_1h : Option ℚ := none
  adx60 : Option ℚ := none
  rsi : Option ℚ := none
  rsi14 : Option ℚ := none
  macd : Option ℚ := none
  macd_sig : Option ℚ := none
  macd_hist : Option ℚ := none
  macd_histogram : Option ℚ := none
  macd_hist_prev : Option ℚ := none
  macd_hist_1 : Option ℚ := none
  volume : Option ℚ := none
  vol : Option ℚ := none
  vol_ma : Option ℚ := none
  volume_ma : Option ℚ := none
  bb_width : Option ℚ := none
  bb_w : Option ℚ := none
  bb_width_ma : Option ℚ := none
  bb_w_ma : Option ℚ := none
  volume_24h_avg : Option ℚ := none
  price_5m_ago : Option ℚ := none
  price_prev : Option ℚ := none
  ema9_15m : Option ℚ := none
  ema21_15m : Option ℚ := none
  ema9_1h : Option ℚ := none
  ema21_1h : Option ℚ := none
  sma10_15m : Option ℚ := none
  sma50_15m : Option ℚ := none
  sma10_1h : Option ℚ := none
  sma50_1h : Option ℚ := none
  ofi_z : Option ℚ := none
  edge_votes : Option ℤ := none
  liq_short_usd : Option ℚ := none
  liq_long_usd : Option ℚ := none
  oi_drop_pct : Option ℚ := none
  hh : Option ℚ := none
  ll : Option ℚ := none
  btc_correlation : Option ℚ := none

/-- one normalized public trade, as produced by
flow_filters.fetch_recent_trades_linear: `{"time": ms, "price", "size", "side"}`. -/
structure Trade where
  time : ℤ
  price : ℚ
  size : ℚ
  side : String

/-- an order book `{"a": asks, "b": bids}` with (price, size) levels. -/
structure Book where
  a : List (ℚ × ℚ) := []
  b : List (ℚ × ℚ) := []

/-- result record of flow_filters.compute_flow_metrics. -/
structure FlowMetrics where
  count : ℤ
  consec : ℤ
  imbalance : ℚ
  rate_usd : ℚ
  net_usd : ℚ
deriving DecidableEq

/-- flow_filters._usd_value. -/
def usd_value (t : Trade) : ℚ := t.price * t.size

/-- flow_filters._within_window: keep trades within `window_sec` of the first
trade's timestamp (falling back to the last trade's timestamp when the first
is 0; the wall-clock fallback for an empty list is irrelevant because the
filter of an empty list is empty). -/
def within_window (trades : List Trade) (window_sec : ℤ) : List Trade :=
  let w := window_sec * 1000
  let now_ms : ℤ :=
    match trades with
    | [] => 0
    | t0 :: _ =>
      let tlast := ((trades.getLast?).map Trade.time).getD 0
      if t0.time = 0 then tlast else t0.time
  trades.filter (fun t => decide (now_ms - t.time ≤ w))

/-- fold state for the trade loop of compute_flow_metrics:
(net, consec, last_side, imb_n). -/
def flowStep (st : ℚ × ℤ × Option String × ℤ) (t : Trade) : ℚ × ℤ × Option String × ℤ :=
  let (net, consec, last_side, imb_n) := st
  let side := t.side.toLower
  let usd := usd_value t
  if side = "buy" then
    (net + usd,
     (if last_side = none ∨ last_side = some "buy" then consec + 1 else consec),
     some "buy", imb_n + 1)
  else if side = "sell" then
    (net - usd,
     (if last_side = none ∨ last_side = some "sell" then consec + 1 else consec),
     some "sell", imb_n - 1)
  else st

/-- flow_filters.compute_flow_metrics. -/
def compute_flow_metrics (trades : List Trade) (window_sec : ℤ) : FlowMetrics :=
  let win := within_window trades window_sec
  match win with
  | [] => ⟨0, 0, 0, 0, 0⟩
  | t0 :: _ =>
    let cnt : ℤ := win.length
    let ms_span : ℤ := max 1 (t0.time - (((win.getLast?).map Trade.time).getD 0))
    let sec_span : ℚ := max 1 ((ms_span : ℚ) / 1000)
    let r := win.foldl flowStep (0, 0, none, 0)
    let net := r.1
    let consec := r.2.1
    let imb_n := r.2.2.2
    let imbalance := max (-1 : ℚ) (min 1 ((imb_n : ℚ) / (cnt : ℚ)))
    ⟨cnt, consec, imbalance, net / sec_span, net⟩

/-- flow_filters.compute_wall_pressure: USD-weighted ask/bid pressure over the
top `depth` levels; returns (ask/bid quotient, ask_sum, bid_sum), with 0 for
the quotient when the bid side is empty. -/
def compute_wall_pressure (book : Book) (depth : ℤ) : ℚ × ℚ × ℚ :=
  let asks := book.a.take depth.toNat
  let bids := book.b.take depth.toNat
  let ask_sum := (asks.map fun pq => pq.1 * pq.2).sum
  let bid_sum := (bids.map fun pq => pq.1 * pq.2).sum
  let quot := if 0 < bid_sum then ask_sum / bid_sum else 0
  (quot, ask_sum, bid_sum)

/-- flow_filters_dynamic.classify_regime (src/src/flow_filters_dynamic.py
lines 160-310).  The function's side-channel writes into ctx (mtf_align,
strong_score_up/down, sudden_move, ...) are metadata that never feed back into
the returned classification, so only the returned regime string is modelled;
the strength-score block is elided for the same reason.  The module-level `S`
it reads is the global STRATEGY. -/
def classify_regime (ctx : Ctx) : String :=
  let price0 := ctx.price.getD 0
  let price := if price0 = 0 then 1 else price0
  let atr := ctx.atr.getD 0
  let adx := ctx.adx.getD 0
  let s10 := ctx.sma10.getD (ctx.ema9.getD price)
  let s50 := ctx.sma50.getD (ctx.ema21.getD s10)
  let macd := ctx.macd.getD 0
  let msig := ctx.macd_sig.getD 0
  let atrp := if price = 0 then 0 else atr / price
  let volume_24h_avg := ctx.volume_24h_avg.getD 0
  let current_volume := ctx.volume.getD (ctx.vol.getD 0)
  let low_liquidity := decide (0 < volume_24h_avg) && decide (current_volume < volume_24h_avg * (3/10))
  if low_liquidity then "neutral"
  else if decide (atrp ≤ STRATEGY.atrp_range_max) &&
          decide (|s10 - s50| ≤ STRATEGY.sma_confluence_atr_k * max atr (1/1000000000)) then "range"
  else
    let ema9_5 := ctx.ema9.getD (ctx.sma10.getD s10)
    let ema21_5 := ctx.ema21.getD (ctx.sma50.getD s50)
    let ema9_15 := ctx.ema9_15m.getD (ctx.sma10_15m.getD ema9_5)
    let ema21_15 := ctx.ema21_15m.getD (ctx.sma50_15m.getD ema21_5)
    let ema9_1h := ctx.ema9_1h.getD (ctx.sma10_1h.getD ema9_5)
    let ema21_1h := ctx.ema21_1h.getD (ctx.sma50_1h.getD ema21_5)
    let adx_15 := ctx.adx_15m.getD (ctx.adx15.getD 0)
    let adx_1h := ctx.adx_1h.getD (ctx.adx60.getD 0)
    let m5_up := decide (25 ≤ adx) && decide (ema21_5 < ema9_5)
    let m5_down := decide (25 ≤ adx) && decide (ema9_5 < ema21_5)
    let m15_up := decide (20 ≤ adx_15) && decide (ema21_15 < ema9_15)
    let m15_down := decide (20 ≤ adx_15) && decide (ema9_15 < ema21_15)
    let h1_up := decide (18 ≤ adx_1h) && decide (ema21_1h < ema9_1h)
    let h1_down := decide (18 ≤ adx_1h) && decide (ema9_1h < ema21_1h)
    let align_up := m5_up && (m15_up || h1_up)
    let align_down := m5_down && (m15_down || h1_down)
    let atr_gate := decide (STRATEGY.atrp_trend_min ≤ atrp)
    let adx_gate := decide (STRATEGY.adx_trend_min ≤ adx)
    let gate_trend := atr_gate || adx_gate
    let up_dir := (decide (s50 < s10) && decide (msig ≤ macd)) || align_up
    let down_dir := (decide (s10 < s50) && decide (macd ≤ msig)) || align_down
    if gate_trend && up_dir && !down_dir then "trend_up"
    else if gate_trend && down_dir && !up_dir then "trend_down"
    else "neutral"

/-- flow_filters_dynamic._get_guard_ma_and_name: select the guard MA
(SMA10 | SMA20 | EMA10) with fallback to `s10_fallback`. -/
def get_guard_ma_and_name (ctx : Ctx) (s10_fallback : ℚ) (S : StrategyConfig) : ℚ × String :=
  if S.guard_ma_type = "SMA20" then (ctx.sma20.getD s10_fallback, "SMA20")
  else if S.guard_ma_type = "EMA10" then (ctx.ema10.getD (ctx.ema9.getD s10_fallback), "EMA10")
  else (ctx.sma10.getD s10_fallback, "SMA10")

/-- flow_filters_dynamic._calc_guard_buffer_k: ATR-buffer multiplier k for the
absolute guard (regime multiplier, dynamic widening by ATR%, capped). -/
def calc_guard_buffer_k (regime : String) (atr price : ℚ) (S : StrategyConfig) : ℚ :=
  let base := S.guard_buffer_atr_base
  let mul :=
    if regime = "trend_up" ∨ regime = "trend_down" then S.guard_buffer_mul_trend
    else if regime = "range" then S.guard_buffer_mul_range
    else S.guard_buffer_mul_neutral
  let k := base * mul
  let k :=
    if S.use_dynamic_buffer_by_atrp && decide (0 < price) && decide (0 ≤ atr) then
      let atrp := atr / price
      if decide (S.guard_buffer_atrp_ref < atrp) && decide (0 < S.guard_buffer_atrp_ref) then
        k * (1 + S.guard_buffer_atrp_slope * (atrp - S.guard_buffer_atrp_ref) / S.guard_buffer_atrp_ref)
      else k
    else k
  let k := if S.guard_buffer_atr_cap < k then S.guard_buffer_atr_cap else k
  if k < 0 then 0 else k

/-- flow_filters_dynamic._is_bear_regime: SMA10 < SMA50 and MACD < signal. -/
def is_bear_regime (ctx : Ctx) : Bool :=
  let s10 := ctx.sma10.getD 0
  let s50 := ctx.sma50.getD s10
  let m := ctx.macd.getD 0
  let ms := ctx.macd_sig.getD 0
  decide (s10 < s50) && decide (m < ms)

/-- flow_filters_dynamic._is_capitulation_long: OFI z >= +2.0, short-side
liquidations >= 3,000,000 USD, OI change <= -0.7%. -/
def is_capitulation_long (ctx : Ctx) : Bool :=
  decide (2 ≤ ctx.ofi_z.getD 0) &&
  decide (3000000 ≤ ctx.liq_short_usd.getD 0) &&
  decide (ctx.oi_drop_pct.getD 0 ≤ -(7/10))

/-- flow_filters_dynamic._is_capitulation_short: OFI z <= -2.0, long-side
liquidations >= 3,000,000 USD, OI change <= -0.7%. -/
def is_capitulation_short (ctx : Ctx) : Bool :=
  decide (ctx.ofi_z.getD 0 ≤ -2) &&
  decide (3000000 ≤ ctx.liq_long_usd.getD 0) &&
  decide (ctx.oi_drop_pct.getD 0 ≤ -(7/10))

/-- flow_filters_dynamic.should_allow_override (callers always pass an
upper-case side, so the `.upper()` in the source is the identity). -/
def should_allow_override (regime side : String) : Bool :=
  if regime = "trend_up" ∧ side ≠ "LONG" then false
  else if regime = "trend_down" ∧ side ≠ "SHORT" then false
  else true

/-- the absolute MA-buffer stage of decide_entry_guard_long
(flow_filters_dynamic.py lines 393-398): LONG is rejected here iff the stage
is required, not disabled for trend_up, and close < guardMA - k*ATR. -/
def guard_abs_reject_long (ctx : Ctx) (S : StrategyConfig) : Bool :=
  let price := ctx.price.getD 0
  let s10 := ctx.sma10.getD price
  let atr0 := ctx.atr.getD 0
  let atr := if atr0 = 0 then 1/1000000000 else atr0
  let regime := classify_regime ctx
  let gma := (get_guard_ma_and_name ctx s10 S).1
  let k_guard := calc_guard_buffer_k regime atr price S
  S.require_close_gt_sma10_long &&
    !(decide (regime = "trend_up") && S.guard_disable_long_in_trend_up) &&
    decide (price < gma - k_guard * atr)

/-- the absolute MA-buffer stage of decide_entry_guard_short
(flow_filters_dynamic.py lines 554-559): SHORT is rejected here iff the stage
is required, not disabled for trend_down, and close > guardMA + k*ATR. -/
def guard_abs_reject_short (ctx : Ctx) (S : StrategyConfig) : Bool :=
  let price := ctx.price.getD 0
  let s10 := ctx.sma10.getD price
  let atr0 := ctx.atr.getD 0
  let atr := if atr0 = 0 then 1/1000000000 else atr0
  let regime := classify_regime ctx
  let gma := (get_guard_ma_and_name ctx s10 S).1
  let k_guard := calc_guard_buffer_k regime atr price S
  S.require_close_lt_sma10_short &&
    !(decide (regime = "trend_down") && S.guard_disable_short_in_trend_down) &&
    decide (gma + k_guard * atr < price)

/-- flow_filters_dynamic.decide_entry_guard_long (lines 378-530).  The reason
strings keep the literal constant parts of the source reasons (numeric
f-string interpolations elided); the long-window flow metrics `fm_l` are
computed by the source only for the diagnostic text and are elided with them.
Relax tags are accumulated exactly as in the source and surface in the OK
reason. -/
def decide_entry_guard_long (trades : List Trade) (book : Book) (ctx : Ctx)
    (S : StrategyConfig) : Bool × String :=
  let price := ctx.price.getD 0
  let s10 := ctx.sma10.getD price
  let atr0 := ctx.atr.getD 0
  let atr := if atr0 = 0 then 1/1000000000 else atr0
  let rsi := ctx.rsi.getD (ctx.rsi14.getD 50)
  let regime := classify_regime ctx
  if guard_abs_reject_long ctx S then (false, "close<guardMA-kATR(guard)")
  else if decide (rsi < S.rsi_long_min) then (false, "RSI<rsi_long_min(guard)")
  else
    let alpha_base := S.entry_pullback_atr
    let alpha := if regime = "trend_up" then max alpha_base S.entry_pullback_atr_trend_min
                 else alpha_base
    let relax_tags : List String :=
      if regime = "trend_up" ∧ alpha_base < alpha then ["trend_widen"] else []
    let target := s10 + alpha * atr
    let dist_atr := (price - s10) / atr
    let k_cap_base :=
      if regime = "trend_up" ∨ regime = "trend_down" then S.entry_max_over_sma10_atr_trend
      else if regime = "range" then S.entry_max_over_sma10_atr_range
      else S.entry_max_over_sma10_atr_neutral
    let votes := ctx.edge_votes.getD 0
    let ofi_z := ctx.ofi_z.getD 0
    let bonus : ℚ :=
      if S.cap_bonus_enabled && !(decide (regime = "trend_up")) then
        let b1 := if decide (2 ≤ votes) then S.cap_bonus_votes2 else 0
        let b2 := if decide (3 ≤ votes) then ((votes - 2 : ℤ) : ℚ) * S.cap_bonus_per_vote else 0
        let b3 := if decide (S.ofi_z_boost_thr ≤ ofi_z) then
                    (ofi_z - S.ofi_z_boost_thr) * S.cap_bonus_ofi_z_k
                  else 0
        let b := b1 + b2 + b3
        let bmax := if regime = "range" then S.cap_bonus_range_max else S.cap_bonus_neutral_max
        if bmax < b then bmax else b
      else 0
    let k_cap_dyn := k_cap_base + max 0 bonus
    if is_bear_regime ctx then
      (if is_capitulation_long ctx then (true, "capitulation_long")
       else (false, "Bear regime: long disabled"))
    else
      let fm_s := compute_flow_metrics trades S.flow_window_short_sec
      let pb : Option (List String) :=
        if decide (target < price) then
          let allow_by_flow := decide (S.pullback_override_rateS ≤ fm_s.rate_usd) &&
                               decide (S.pullback_override_netS ≤ fm_s.net_usd)
          let extra := if regime = "neutral" then S.momentum_extra_atr_neutral else 0
          let allow_by_momentum := S.use_momentum_pullback_override &&
                                   decide (S.momentum_votes_min ≤ votes) &&
                                   decide (dist_atr ≤ k_cap_dyn + extra)
          let regime_ok := should_allow_override regime "LONG"
          if allow_by_flow && regime_ok then some (relax_tags ++ ["strong_flow_override"])
          else if allow_by_momentum && regime_ok then some (relax_tags ++ ["momentum_override"])
          else if S.use_pivot_ob_override then
            let obq := (compute_wall_pressure book S.ob_depth).1
            if regime_ok && decide (dist_atr ≤ S.pivot_max_dist_atr) &&
               decide (obq ≤ S.pivot_ob_max_ratio) &&
               decide (S.pivot_min_ofi_z ≤ ofi_z) && decide (2 ≤ votes)
            then some (relax_tags ++ ["pivot_ob_override"])
            else none
          -- source slip kept: with use_pivot_ob_override false nothing rejects here
          else some relax_tags
        else some relax_tags
      match pb with
      | none => (false, "waiting for pullback")
      | some relax_tags =>
        if decide (k_cap_dyn < dist_atr) then (false, "dist>SMA10+capATR")
        else
          let obStage : Option (List String) :=
            if S.use_orderbook_filter then
              let obq := (compute_wall_pressure book S.ob_depth).1
              let base_max := if regime = "trend_up" then S.ob_ask_bid_max_trend
                else if regime = "range" then S.ob_ask_bid_max_range
                else S.ob_ask_bid_max_neutral
              if decide (obq ≤ base_max + S.ob_relax_band) then some relax_tags
              else if decide (S.ob_override_rateS ≤ fm_s.rate_usd) &&
                      decide (S.ob_override_netS ≤ fm_s.net_usd) &&
                      should_allow_override regime "LONG" then
                some (relax_tags ++ ["ob_strong_flow_override"])
              else none
            else some relax_tags
          match obStage with
          | none => (false, "OB caution")
          | some relax_tags =>
            let flow_ok := decide (S.flow_min_count ≤ fm_s.count) &&
                           decide (S.flow_min_consec ≤ fm_s.consec) &&
                           decide (S.flow_min_imbalance ≤ fm_s.imbalance) &&
                           decide (S.flow_min_net_usd ≤ fm_s.net_usd)
            if !flow_ok then (false, "flow insufficient")
            else (true, String.intercalate "|" ("OK" :: relax_tags))

/-- flow_filters_dynamic.decide_entry_guard_short (lines 532-689), embedded on
the same conventions as decide_entry_guard_long.  Note the source asymmetries
kept here: the trend widening tests `regime == "trend_up"`, the cap-bonus skip
tests `regime != "trend_up"`, the orderbook base-max uses the trend key for
both trend regimes, and there is no bull-regime counterpart of the LONG
guard's bear-regime block. -/
def decide_entry_guard_short (trades : List Trade) (book : Book) (ctx : Ctx)
    (S : StrategyConfig) : Bool × String :=
  let price := ctx.price.getD 0
  let s10 := ctx.sma10.getD price
  let atr0 := ctx.atr.getD 0
  let atr := if atr0 = 0 then 1/1000000000 else atr0
  let rsi := ctx.rsi.getD (ctx.rsi14.getD 50)
  let regime := classify_regime ctx
  if guard_abs_reject_short ctx S then (false, "close>guardMA+kATR(guard)")
  else if decide (S.rsi_short_max < rsi) then (false, "RSI>rsi_short_max(guard)")
  else
    let alpha_base := S.entry_pullback_atr
    let alpha := if regime = "trend_up" then max alpha_base S.entry_pullback_atr_trend_min
                 else alpha_base
    let relax_tags : List String :=
      if regime = "trend_up" ∧ alpha_base < alpha then ["trend_widen"] else []
    let target := s10 - alpha * atr
    let dist_atr := (s10 - price) / atr
    let k_cap_base :=
      if regime = "trend_up" ∨ regime = "trend_down" then S.entry_max_over_sma10_atr_trend
      else if regime = "range" then S.entry_max_over_sma10_atr_range
      else S.entry_max_over_sma10_atr_neutral
    let votes := ctx.edge_votes.getD 0
    let ofi_z := ctx.ofi_z.getD 0
    let bonus : ℚ :=
      if S.cap_bonus_enabled && !(decide (regime = "trend_up")) then
        let b12 := if decide (2 ≤ votes) then
            S.cap_bonus_votes2 +
              (if decide (3 ≤ votes) then ((votes - 2 : ℤ) : ℚ) * S.cap_bonus_per_vote else 0)
          else 0
        let b3 := if decide (ofi_z ≤ -S.ofi_z_boost_thr) then
            (|ofi_z| - S.ofi_z_boost_thr) * S.cap_bonus_ofi_z_k
          else 0
        let b := b12 + b3
        let bmax := if regime = "range" then S.cap_bonus_range_max else S.cap_bonus_neutral_max
        if bmax < b then bmax else b
      else 0
    let k_cap_dyn := k_cap_base + max 0 bonus
    let fm_s := compute_flow_metrics trades S.flow_window_short_sec
    let pb : Option (List String) :=
      if decide (price < target) then
        let allow_by_flow := decide (S.pullback_override_rateS ≤ |fm_s.rate_usd|) &&
                             decide (fm_s.net_usd ≤ -S.pullback_override_netS)
        let extra := if regime = "neutral" then S.momentum_extra_atr_neutral else 0
        let allow_by_momentum := S.use_momentum_pullback_override &&
                                 decide (S.momentum_votes_min ≤ votes) &&
                                 decide (dist_atr ≤ k_cap_dyn + extra)
        let regime_ok := should_allow_override regime "SHORT"
        if allow_by_flow && regime_ok then some (relax_tags ++ ["strong_flow_override"])
        else if allow_by_momentum && regime_ok then some (relax_tags ++ ["momentum_override"])
        else if S.use_pivot_ob_override then
          let obq := (compute_wall_pressure book S.ob_depth).1
          let want_min := 1 / max (1/1000000000) S.pivot_ob_max_ratio
          if regime_ok && decide (dist_atr ≤ S.pivot_max_dist_atr) &&
             decide (want_min ≤ obq) &&
             decide (ofi_z ≤ -S.pivot_min_ofi_z) && decide (2 ≤ votes)
          then some (relax_tags ++ ["pivot_ob_override"])
          else none
        else some relax_tags
      else some relax_tags
    match pb with
    | none => (false, "waiting for rally to sell")
    | some relax_tags =>
      if decide (k_cap_dyn < dist_atr) then (false, "dist<SMA10-capATR")
      else
        let obStage : Option (List String) :=
          if S.use_orderbook_filter then
            let obq := (compute_wall_pressure book S.ob_depth).1
            let base_max := if regime = "trend_up" ∨ regime = "trend_down" then S.ob_ask_bid_max_trend
              else if regime = "range" then S.ob_ask_bid_max_range
              else S.ob_ask_bid_max_neutral
            -- SHORT wants ask dominance: 1/quotient (infinite when quotient <= 0)
            -- must stay within base_max + relax
            let ob_ok := if 0 < obq then decide (1 / obq ≤ base_max + S.ob_relax_band) else false
            if ob_ok then some relax_tags
            else if decide (S.ob_override_rateS ≤ |fm_s.rate_usd|) &&
                    decide (fm_s.net_usd ≤ -S.ob_override_netS) &&
                    should_allow_override regime "SHORT" then
              some (relax_tags ++ ["ob_strong_flow_override"])
            else none
          else some relax_tags
        match obStage with
        | none => (false, "OB caution")
        | some relax_tags =>
          let flow_ok := decide (S.flow_min_count ≤ fm_s.count) &&
                         decide (S.flow_min_consec ≤ fm_s.consec) &&
                         decide (fm_s.imbalance ≤ -S.flow_min_imbalance) &&
                         decide (fm_s.net_usd ≤ -S.flow_min_net_usd)
          if !flow_ok then (false, "flow insufficient")
          else (true, String.intercalate "|" ("OK" :: relax_tags))

/-- an open position record as read by exit_engine.evaluate
(src/src/exit_engine.py): side, TP/SL/entry prices, entry timestamp
(seconds; the source stores an ISO string and parses it), initial risk
distance. -/
structure Position where
  side : String := "long"
  tp_price : Option ℚ := none
  sl_price : Option ℚ := none
  entry_price : Option ℚ := none
  time : Option ℚ := none
  risk_sl_dist : Option ℚ := none

/-- the coerced edge-metrics snapshot `_edge_metrics_snapshot` used by
exit_engine.py and main.py (missing or malformed keys coerce to 0). -/
structure EdgeMetrics where
  ofi_z : ℚ := 0
  cons_buy : ℤ := 0
  cons_sell : ℤ := 0
  cvd_slope_z : ℚ := 0

/-- the slice of the cross-tick `state["exit_engine"]` dictionary relevant to
one evaluate call: the stored previous flow rate for each side and the stored
peak R of this position (`st[f"peak_R_{key}"]`, 0 when absent). -/
structure ExitState where
  flow_prev_long : ℚ := 0
  flow_prev_short : ℚ := 0
  peak_R : ℚ := 0

/-- exit decision record returned by exit_engine.evaluate; the source's
"ratio" key is the `part_frac` field here. -/
structure ExitDecision where
  action : String
  part_frac : Option ℚ := none
  grace_sec : Option ℤ := none
  reason : String := ""
deriving DecidableEq

/-- the near-TP early-take-profit trigger of exit_engine.evaluate
(section A, lines 129-141): distance to TP within the bps/ATR band and at
least `early_tp_votes_needed` (default 2) of the four votes (adverse wick,
MACD-histogram peak-out, order book turned against the position, flow rate
worsening vs the stored previous reading). -/
def exit_near_tp_fires (pos : Position) (ctx : Ctx) (book : Book) (trades : List Trade)
    (st : ExitState) (S : StrategyConfig) (h l : Option ℚ) : Bool :=
  let side := pos.side.toLower
  let c := ctx.price.getD 0
  let a0 := ctx.atr.getD 0
  let a := if a0 = 0 then 1/1000000000 else a0
  let tp := pos.tp_price.getD (c * (1 + 2/100))
  let ob_exit_thr := max (12/10) (S.ob_ask_bid_max_trend - 2/10)
  let price_bps := c * ((10 : ℚ) / 10000)
  let near_thr := max price_bps ((1/10) * a)
  let dist_tp := if side = "long" then max 0 (tp - c) else max 0 (c - tp)
  let hv := h.getD (ctx.hh.getD c)
  let lv := l.getD (ctx.ll.getD c)
  let wick_quot := if side = "long" then (max 0 (hv - c)) / (max (1/1000000000) (c - lv))
                   else (max 0 (c - lv)) / (max (1/1000000000) (hv - c))
  let macd_peakout := decide (ctx.macd_hist.getD 0 < ctx.macd_hist_prev.getD 0)
  let obq := (compute_wall_pressure book S.ob_depth).1
  let rate_usd := (compute_flow_metrics trades 30).rate_usd
  let prev_rate := if side = "long" then st.flow_prev_long else st.flow_prev_short
  let flow_worse := decide (rate_usd < prev_rate) ||
    (decide (side = "long") && decide (rate_usd ≤ 0)) ||
    (decide (side = "short") && decide (0 ≤ rate_usd))
  let near_tp := decide (dist_tp ≤ near_thr)
  let votes : ℤ :=
    (if near_tp && decide ((2 : ℚ) ≤ wick_quot) then 1 else 0) +
    (if near_tp && macd_peakout then 1 else 0) +
    (if near_tp && ((decide (side = "long") && decide (ob_exit_thr ≤ obq)) ||
                    (decide (side = "short") && decide (obq ≤ 1 / ob_exit_thr))) then 1 else 0) +
    (if near_tp && flow_worse then 1 else 0)
  near_tp && decide ((2 : ℤ) ≤ votes)

/-- the SL-grace trigger of exit_engine.evaluate (section B, lines 151-160):
distance to SL within the grace band and at least `sl_grace_need_votes`
(default 2) of {order book bid-favored, OFI still favors the side, price still
on the favorable side of SMA10 with 0.15 ATR tolerance}. -/
def exit_sl_grace_cond (pos : Position) (ctx : Ctx) (book : Book)
    (em : EdgeMetrics) (S : StrategyConfig) : Bool :=
  let side := pos.side.toLower
  let c := ctx.price.getD 0
  let a0 := ctx.atr.getD 0
  let a := if a0 = 0 then 1/1000000000 else a0
  let s10 := ctx.sma10.getD c
  let sl := pos.sl_price.getD (c * (1 - 2/100))
  let dist_sl := if side = "long" then max 0 (c - sl) else max 0 (sl - c)
  let price_bps_sl := c * ((6 : ℚ) / 10000)
  let near_sl := decide (dist_sl ≤ max price_bps_sl ((6/100) * a))
  let obq := (compute_wall_pressure book S.ob_depth).1
  let ob_bid_favored := decide (obq < 1)
  let ofi_ok := if side = "long" then decide (0 ≤ em.ofi_z) else decide (em.ofi_z ≤ 0)
  let ma_ok := if side = "long" then decide (s10 - (15/100) * a ≤ c)
               else decide (c ≤ s10 + (15/100) * a)
  let votes_sl : ℤ := (if ob_bid_favored then 1 else 0) + (if ofi_ok then 1 else 0) +
                      (if ma_ok then 1 else 0)
  near_sl && decide ((2 : ℤ) ≤ votes_sl)

/-- the time-stop trigger of exit_engine.evaluate (section C, lines 167-183):
held longer than `time_stop_min` minutes with the updated peak R below
`min_follow_through_R`.  `now_sec` is the wall clock. -/
def exit_time_stop_cond (pos : Position) (ctx : Ctx) (st : ExitState)
    (now_sec : ℚ) : Bool :=
  let side := pos.side.toLower
  let c := ctx.price.getD 0
  let sl := pos.sl_price.getD (c * (1 - 2/100))
  let ep := pos.entry_price.getD c
  let held_min := match pos.time with
    | some t => (now_sec - t) / 60
    | none => 0
  let r0v := |pos.risk_sl_dist.getD (if side = "long" then ep - sl else sl - ep)|
  let r0 := if r0v = 0 then 1/1000000000 else r0v
  let cur_R := if side = "long" then (c - ep) / r0 else (ep - c) / r0
  let peak := max st.peak_R cur_R
  decide ((7 : ℚ) ≤ held_min) && decide (peak < (2/5 : ℚ))

/-- exit_engine.evaluate (src/src/exit_engine.py lines 40-186).  Control flow
of the source preserved: near-TP early take profit first (TP_ALL in
range/neutral, TP_PART in trend), then SL grace, then time stop, else HOLD.
Parameters to `getattr(S, ...)` that config.py does not define are resolved to
their call-site defaults inside the stage helpers; the state writes
(`st[fk] = rate_usd`, `st[pk_key] = max(...)`) only affect later calls and are
modelled by the caller-threaded ExitState. -/
def evaluate (pos : Position) (ctx : Ctx) (book : Book) (trades : List Trade)
    (em : EdgeMetrics) (st : ExitState) (S : StrategyConfig) (now_sec : ℚ)
    (h l : Option ℚ) : ExitDecision :=
  let regime := classify_regime ctx
  if exit_near_tp_fires pos ctx book trades st S h l then
    if regime = "range" ∨ regime = "neutral" then
      { action := "TP_ALL", reason := "early_take_profit nearTP" }
    else
      { action := "TP_PART", part_frac := some (max (1/10) (min 1 (1/2 : ℚ))),
        reason := "early_take_profit nearTP" }
  else if exit_sl_grace_cond pos ctx book em S then
    { action := "SL_GRACE", grace_sec := some (max 5 20), reason := "sl_grace keep_support" }
  else if exit_time_stop_cond pos ctx st now_sec then
    { action := "CUT", reason := "time_stop" }
  else
    { action := "HOLD" }

/-- main.py _strong_flow_override (lines 425-456): two of three triggers
(|OFI z| over threshold, direction-matching consecutive count over threshold,
vote count over threshold) with the regime_* thresholds.
`regime_override_min_triggers` is not in config.py, so the default 2 applies. -/
def strong_flow_override (met : EdgeMetrics) (edge_votes : ℤ) (S : StrategyConfig) : Bool :=
  let hits : ℤ :=
    (if decide (S.regime_override_ofi_z ≤ |met.ofi_z|) then 1 else 0) +
    (if (decide (0 ≤ met.ofi_z) && decide (S.regime_override_cons ≤ met.cons_buy)) ||
        (decide (met.ofi_z < 0) && decide (S.regime_override_cons ≤ met.cons_sell)) then 1 else 0) +
    (if decide (S.regime_override_votes ≤ edge_votes) then 1 else 0)
  decide ((2 : ℤ) ≤ hits)

/-- main.py _cooldown_override_by_flow (lines 459-479): raw strong-flow test,
|OFI z| >= threshold or consecutive count >= threshold. -/
def cooldown_override_by_flow (met : EdgeMetrics) (S : StrategyConfig) : Bool :=
  decide (S.cooldown_override_ofi_z ≤ |met.ofi_z|) ||
  decide (S.cooldown_override_cons ≤ max met.cons_buy met.cons_sell)

/-- the dynamic-cooldown clip step of run_loop (main.py lines 1871-1877):
`dyn_cd = int(round(base_cd * ratio)); dyn_cd = max(mn, min(mx, dyn_cd))`
with `mn = 5`, `mx = 30` (cooldown_min_floor / cooldown_max_cap are not in
config.py, so the call-site defaults apply). -/
def dyn_cd_of_ratio (base_cd : ℤ) (rat : ℚ) : ℤ :=
  max 5 (min 30 (pyRound ((base_cd : ℚ) * rat)))

/-- the short/long ATR-median quotient of run_loop (main.py lines 1862-1873):
`atr_short = _median(atr_buf[-12:])` when at least 12 samples exist (else the
current ATR `a`), `atr_long = _median(atr_buf[-48:])` when at least 48 samples
exist (else `atr_short`), `ratio = atr_short / max(atr_long, 1e-9)`. -/
def atr_ratio_run_loop (atr_buf : List ℚ) (a : ℚ) : ℚ :=
  let atr_short := if 12 ≤ atr_buf.length
    then runLoopMedian (atr_buf.drop (atr_buf.length - 12)) a else a
  let atr_long := if 48 ≤ atr_buf.length
    then runLoopMedian (atr_buf.drop (atr_buf.length - 48)) a else atr_short
  atr_short / max atr_long (1/1000000000)

/-- the dynamic cooldown of run_loop (main.py lines 1862-1877): the base
cooldown scaled by the short/long ATR-median quotient, rounded and clipped to
[5, 30] minutes. -/
def dyn_cooldown_run_loop (atr_buf : List ℚ) (a : ℚ) (S : StrategyConfig) : ℤ :=
  dyn_cd_of_ratio S.entry_cooldown_min (atr_ratio_run_loop atr_buf a)

/-- the cooldown gate of run_loop (main.py lines 1879-1907), as a function of
the inputs the block reads.  `cooldown_ok` starts true; the flow override is
vote-extended, then direction-gated against the proposed signal and
ADX-gated; `if override_ok: cooldown_ok = True`; finally, when there is a
previous entry and `strong_flow` is false, `cooldown_ok` is recomputed from
the elapsed time alone (this last write overwrites the gated override).
`strong_flow` is the value computed at line 1422 via _strong_flow_override.
Returns whether the tick may enter (true = cooldown passed/skipped). -/
def cooldown_ok_run_loop (met : EdgeMetrics) (edge_votes : ℤ) (sig : Option String)
    (adx_val : ℚ) (strong_flow : Bool) (elapsed_min : Option ℚ) (dyn_cd : ℤ)
    (S : StrategyConfig) : Bool :=
  let cooldown_ok := true
  let override_ok := cooldown_override_by_flow met S
  let override_ok := if !override_ok && decide (S.cooldown_override_votes ≤ edge_votes)
    then true else override_ok
  let override_ok := if override_ok then
      (let flow_dir := if 0 ≤ met.ofi_z then "LONG" else "SHORT"
       match sig with
       | some s => if s ≠ flow_dir then false else override_ok
       | none => override_ok)
    else override_ok
  let override_ok := if override_ok && decide (adx_val < S.cooldown_override_adx_min)
    then false else override_ok
  let cooldown_ok := if override_ok then true else cooldown_ok
  match elapsed_min with
  | some e => if !strong_flow then decide ((dyn_cd : ℚ) ≤ e) else cooldown_ok
  | none => cooldown_ok

/-- dedup skeleton of one run_loop iteration over a closed candle
(main.py lines 1383-1387 and the marker updates at every exit path of the
body: lines 1806-1808, 1914-1916, 2039-2208, 2485-2508, 2592-2594).
`marker` is the persisted `last_kline_start`; `body` abstracts the whole
decision body: whether the fresh-candle processing makes an entry decision.
Returns (made an entry decision, new marker). -/
def run_loop_iter (marker : Option ℤ) (start : ℤ) (body : ℤ → Bool) : Bool × Option ℤ :=
  if marker = some start then (false, marker)
  else (body start, some start)

/-- iterating run_loop_iter over a sequence of observed candle starts,
counting entry decisions and threading the persisted marker. -/
def run_loop_entry_count (marker : Option ℤ) (starts : List ℤ) (body : ℤ → Bool) :
    ℕ × Option ℤ :=
  match starts with
  | [] => (0, marker)
  | s :: rest =>
    let r := run_loop_iter marker s body
    let acc := run_loop_entry_count r.2 rest body
    ((if r.1 then 1 else 0) + acc.1, acc.2)

/-- one per-second flow bucket of edge_signal_pack/indicators.FlowBuckets:
(second timestamp, accumulated buy qty, accumulated sell qty). -/
structure Bucket where
  ts : ℤ
  buy : ℚ
  sell : ℚ

/-- FlowBuckets.ofi_series: the per-second (buy - sell) series. -/
def ofi_series (buckets : List Bucket) : List ℚ :=
  buckets.map (fun b => b.buy - b.sell)

/-- FlowBuckets.ofi_zscore (edge_signal_pack/indicators.py lines 105-125):
select a 30/60/120-sample sub-window by the available history, return 0.0
with fewer than 5 buckets or a degenerate MAD (< 1e-6), otherwise the robust
z `0.6745 * (last - median) / MAD` clipped to [-z_clip, z_clip]
(np.clip applies the lower bound first). -/
def ofi_zscore (buckets : List Bucket) (z_clip : ℚ) : ℚ :=
  let x := ofi_series buckets
  let n := x.length
  let win := if n < 30 then 30 else if n < 60 then 60 else 120
  if n < 5 then 0
  else
    let arr := x.drop (n - win)
    let med := npMedian arr
    let mad := npMedian (arr.map (fun v => |v - med|))
    if mad < 1/1000000 then 0
    else
      let z := (6745/10000 : ℚ) * ((arr.getLast?).getD 0 - med) / mad
      min z_clip (max (-z_clip) z)

/-- the sub-window median of ofi_zscore, named so the claim can refer to the
MAD of the selected sub-window. -/
def ofi_sub_window (buckets : List Bucket) : List ℚ :=
  let x := ofi_series buckets
  let n := x.length
  let win := if n < 30 then 30 else if n < 60 then 60 else 120
  x.drop (n - win)

/-- the MAD of the selected ofi_zscore sub-window. -/
def ofi_mad (buckets : List Bucket) : ℚ :=
  let arr := ofi_sub_window buckets
  npMedian (arr.map (fun v => |v - npMedian arr|))

/-- edge_signal_pack/indicators.CVDTracker state: running signed delta, its
EMA, and the same-second consecutive buy/sell tick counters. -/
structure CVDState where
  value : ℚ := 0
  alpha : ℚ
  ema : ℚ := 0
  ema_init : Bool := false
  seq_mkt_buys : ℤ := 0
  seq_mkt_sells : ℤ := 0
  last_sec : Option ℤ := none

/-- CVDTracker.__init__ with the given EMA period. -/
def cvd_init (ema_period : ℤ) : CVDState :=
  { alpha := 2 / ((ema_period : ℚ) + 1) }

/-- CVDTracker.on_trade (indicators.py lines 137-160): accumulate the signed
delta, update the EMA, reset both counters on a new wall-clock second, then
bump the counter of the trade's direction and zero the other. -/
def on_trade (st : CVDState) (ts_ms : ℤ) (side : String) (qty : ℚ) : CVDState :=
  let delta := if side.toLower.startsWith "b" then qty else -qty
  let value := st.value + delta
  let ema := if !st.ema_init then value else st.ema + st.alpha * (value - st.ema)
  let sec := Int.fdiv ts_ms 1000
  let reset := st.last_sec = none ∨ st.last_sec ≠ some sec
  let buys := if reset then 0 else st.seq_mkt_buys
  let sells := if reset then 0 else st.seq_mkt_sells
  if 0 < delta then
    { value := value, alpha := st.alpha, ema := ema, ema_init := true,
      seq_mkt_buys := buys + 1, seq_mkt_sells := 0, last_sec := some sec }
  else if delta < 0 then
    { value := value, alpha := st.alpha, ema := ema, ema_init := true,
      seq_mkt_buys := 0, seq_mkt_sells := sells + 1, last_sec := some sec }
  else
    { value := value, alpha := st.alpha, ema := ema, ema_init := true,
      seq_mkt_buys := buys, seq_mkt_sells := sells, last_sec := some sec }

/-- a trade event fed to CVDTracker.on_trade: (ts_ms, side, qty). -/
def cvd_run (ema_period : ℤ) (events : List (ℤ × String × ℚ)) : CVDState :=
  events.foldl (fun st e => on_trade st e.1 e.2.1 e.2.2) (cvd_init ema_period)

/-- edge_signal_pack/config.py thresholds (environment defaults). -/
def OBI_THR : ℚ := 1/2

/-- edge_signal_pack/config.py OFI z threshold. -/
def OFI_Z_THR : ℚ := 2

/-- edge_signal_pack/config.py consecutive market-tick threshold. -/
def SEQ_MKT_TICKS : ℤ := 20

/-- edge_signal_pack/config.py regime-override OFI z threshold. -/
def REGIME_OVERRIDE_OFI_Z : ℚ := 22/10

/-- edge_signal_pack/config.py regime-override consecutive-tick threshold. -/
def REGIME_OVERRIDE_CONS : ℤ := 3

/-- the metrics mapping consumed by edge_signal_pack/strategy.decide_signal;
`none` models an absent key. -/
structure SigMetrics where
  obi : Option ℚ := none
  ofi_z : Option ℚ := none
  cvd_above_ema : Option Bool := none
  seq_buys : Option ℤ := none
  seq_sells : Option ℤ := none
  liq_cluster_ok : Option Bool := none
  doi_up_ok : Option Bool := none

/-- the LONG vote count of decide_signal (strategy.py lines 46-58): OBI above
threshold, OFI z above threshold, CVD above EMA with enough consecutive buys,
liquidation cluster flag, delta-OI-up flag. -/
def long_votes (m : SigMetrics) : ℤ :=
  (if decide (OBI_THR ≤ m.obi.getD 0) then 1 else 0) +
  (if decide (OFI_Z_THR ≤ m.ofi_z.getD 0) then 1 else 0) +
  (if m.cvd_above_ema.getD false && decide (SEQ_MKT_TICKS ≤ m.seq_buys.getD 0) then 1 else 0) +
  (if m.liq_cluster_ok = some true then 1 else 0) +
  (if m.doi_up_ok = some true then 1 else 0)

/-- the SHORT vote count of decide_signal (strategy.py lines 66-76); the
liquidation-cluster and delta-OI-up flags are the same direction-free flags
that the LONG count uses. -/
def short_votes (m : SigMetrics) : ℤ :=
  (if decide (m.obi.getD 0 ≤ -OBI_THR) then 1 else 0) +
  (if decide (m.ofi_z.getD 0 ≤ -OFI_Z_THR) then 1 else 0) +
  (if !(m.cvd_above_ema.getD true) && decide (SEQ_MKT_TICKS ≤ m.seq_sells.getD 0) then 1 else 0) +
  (if m.liq_cluster_ok = some true then 1 else 0) +
  (if m.doi_up_ok = some true then 1 else 0)

/-- edge_signal_pack/strategy.decide_signal (lines 18-82), returning the
signal only (the human-readable reasons list is display-only and elided):
inactive hours veto first, then the regime gate with the strong-flow
exception, then the LONG votes, then the SHORT votes. -/
def decide_signal (m : SigMetrics) (regime_ok jst_active_ok : Bool) : Option String :=
  if !jst_active_ok then none
  else
    let ofi_z := m.ofi_z.getD 0
    let seq_buys := m.seq_buys.getD 0
    let seq_sells := m.seq_sells.getD 0
    let strong_flow := decide (REGIME_OVERRIDE_OFI_Z ≤ |ofi_z|) ||
                       decide (REGIME_OVERRIDE_CONS ≤ max seq_buys seq_sells)
    if !regime_ok && !strong_flow then none
    else if decide ((2 : ℤ) ≤ long_votes m) then some "LONG"
    else if decide ((2 : ℤ) ≤ short_votes m) then some "SHORT"
    else none

/-- the published metrics mapping of EdgeSignalEngine, collapsed to the two
groups of keys relevant to write atomicity: `flow_val` stands for the keys the
unlocked in-place `self._metrics.update({...})` writes
(signal_engine.py line 153: ofi_z, cons_buy, cons_sell, cvd_slope_z,
edge_votes), `book_val` for the keys only the locked copy-and-replace writes
(lines 169-194: price, obi, cvd_above_ema, liq_cluster_ok, doi_up_ok). -/
structure MetricsMap where
  flow_val : Option ℚ
  book_val : Option ℚ
deriving DecidableEq

/-- position of the _metrics_loop writer inside one 1-second tick. -/
inductive WriterPhase where
  | idle : WriterPhase
  | midTick : WriterPhase
deriving DecidableEq

/-- state of the EdgeSignalEngine publication model: the shared metrics
mapping, the tick counter, and the writer's phase. -/
structure EngineState where
  metrics : MetricsMap
  tick : ℕ
  phase : WriterPhase
deriving DecidableEq

/-- initial engine state: `self._metrics = {}`. -/
def engine_init : EngineState := ⟨⟨none, none⟩, 0, .idle⟩

/-- small-step semantics of one _metrics_loop tick, parametrised by the
per-tick computed values (`ofiStream n` for the flow keys, `obiStream n` for
the lock-only keys):
`unlocked_update` is the in-place `self._metrics.update({...})` at line 153,
executed WITHOUT holding `self._lock`; `locked_publish` is the
copy-update-replace block at lines 169-194 executed under the lock.
A reader (get_metrics_snapshot, lines 220-222) takes the lock and copies the
mapping; since the unlocked update does not hold the lock, every reachable
state's `metrics` is observable by a reader. -/
inductive EngineStep (ofiStream obiStream : ℕ → ℚ) : EngineState → EngineState → Prop where
  | unlocked_update (m : MetricsMap) (n : ℕ) :
      EngineStep ofiStream obiStream ⟨m, n, .idle⟩
        ⟨⟨some (ofiStream n), m.book_val⟩, n, .midTick⟩
  | locked_publish (m : MetricsMap) (n : ℕ) :
      EngineStep ofiStream obiStream ⟨m, n, .midTick⟩
        ⟨⟨some (ofiStream n), some (obiStream n)⟩, n + 1, .idle⟩

/-- reachable engine states from the initial state. -/
inductive EngineReach (ofiStream obiStream : ℕ → ℚ) : EngineState → Prop where
  | init : EngineReach ofiStream obiStream engine_init
  | step (s s' : EngineState) : EngineReach ofiStream obiStream s →
      EngineStep ofiStream obiStream s s' → EngineReach ofiStream obiStream s'

/-- a fully-formed snapshot: either still the initial empty mapping, or both
key groups as published together by one recompute tick. -/
def snapshot_well_formed (ofiStream obiStream : ℕ → ℚ) (m : MetricsMap) : Prop :=
  m = ⟨none, none⟩ ∨ ∃ n, m = ⟨some (ofiStream n), some (obiStream n)⟩

/-- Modelled from the spec (claim C1 wording): reflect an optional price-level
value through the reflection centre p. -/
def reflAt (p : ℚ) : Option ℚ → Option ℚ
  | none => none
  | some x => some (2 * p - x)

/-- Modelled from the spec (claim C1 wording): negate an optional value. -/
def negOpt : Option ℚ → Option ℚ
  | none => none
  | some x => some (-x)

/-- Modelled from the spec (claim C1 wording): reflect an optional RSI value
through the neutral level 50. -/
def rsiMirror : Option ℚ → Option ℚ
  | none => none
  | some x => some (100 - x)

/-- Modelled from the spec (claim C1 wording): the mirror reflection of a
guard context — price-level fields reflected through the current price
(flipping every price-vs-MA inequality), RSI reflected through 50, MACD
family and OFI z negated, the high/low pair swapped and reflected, the
long/short liquidation totals swapped; ATR, ADX, volumes, vote counts and the
OI change are direction-free and kept. -/
def mirrorCtx (ctx : Ctx) : Ctx :=
  let p := ctx.price.getD 0
  { price := ctx.price
    sma10 := reflAt p ctx.sma10
    sma20 := reflAt p ctx.sma20
    sma50 := reflAt p ctx.sma50
    sma200 := reflAt p ctx.sma200
    ema9 := reflAt p ctx.ema9
    ema10 := reflAt p ctx.ema10
    ema21 := reflAt p ctx.ema21
    ema50 := reflAt p ctx.ema50
    atr := ctx.atr
    adx := ctx.adx
    adx_15m := ctx.adx_15m
    adx15 := ctx.adx15
    adx_1h := ctx.adx_1h
    adx60 := ctx.adx60
    rsi := rsiMirror ctx.rsi
    rsi14 := rsiMirror ctx.rsi14
    macd := negOpt ctx.macd
    macd_sig := negOpt ctx.macd_sig
    macd_hist := negOpt ctx.macd_hist
    macd_histogram := negOpt ctx.macd_histogram
    macd_hist_prev := negOpt ctx.macd_hist_prev
    macd_hist_1 := negOpt ctx.macd_hist_1
    volume := ctx.volume
    vol := ctx.vol
    vol_ma := ctx.vol_ma
    volume_ma := ctx.volume_ma
    bb_width := ctx.bb_width
    bb_w := ctx.bb_w
    bb_width_ma := ctx.bb_width_ma
    bb_w_ma := ctx.bb_w_ma
    volume_24h_avg := ctx.volume_24h_avg
    price_5m_ago := reflAt p ctx.price_5m_ago
    price_prev := reflAt p ctx.price_prev
    ema9_15m := reflAt p ctx.ema9_15m
    ema21_15m := reflAt p ctx.ema21_15m
    ema9_1h := reflAt p ctx.ema9_1h
    ema21_1h := reflAt p ctx.ema21_1h
    sma10_15m := reflAt p ctx.sma10_15m
    sma50_15m := reflAt p ctx.sma50_15m
    sma10_1h := reflAt p ctx.sma10_1h
    sma50_1h := reflAt p ctx.sma50_1h
    ofi_z := negOpt ctx.ofi_z
    edge_votes := ctx.edge_votes
    liq_short_usd := ctx.liq_long_usd
    liq_long_usd := ctx.liq_short_usd
    oi_drop_pct := ctx.oi_drop_pct
    hh := reflAt p ctx.ll
    ll := reflAt p ctx.hh
    btc_correlation := ctx.btc_correlation }

/-- Modelled from the spec (claim C1 wording): the mirror of an order book
swaps the ask and bid sides. -/
def mirrorBook (book : Book) : Book := ⟨book.b, book.a⟩

/-- Modelled from the spec (claim C1 wording): the mirror of a trade flips
its aggressor side. -/
def mirrorTrade (t : Trade) : Trade :=
  ⟨t.time, t.price, t.size, if t.side.toLower = "buy" then "Sell" else "Buy"⟩

/-- Modelled from the spec (claim C2 wording): a bull regime is the mirror of
_is_bear_regime — SMA10 > SMA50 and MACD > signal. -/
def spec_bull_regime (ctx : Ctx) : Bool :=
  let s10 := ctx.sma10.getD 0
  let s50 := ctx.sma50.getD s10
  let m := ctx.macd.getD 0
  let ms := ctx.macd_sig.getD 0
  decide (s50 < s10) && decide (ms < m)

set_option maxRecDepth 100000

/-- concrete bear-regime context for the mirror-symmetry counterexample:
price 100, SMA10 99.9 < SMA50 100.5, MACD -1 < signal 0, RSI 60, ATR 0.5. -/
def c1_ctx : Ctx :=
  { price := some 100
    sma10 := some (999/10)
    sma50 := some (1005/10)
    atr := some (1/2)
    macd := some (-1)
    macd_sig := some 0
    rsi := some 60 }

/-- concrete trade tape: 180 market buys of 10 contracts at price 100 within
one millisecond (mirrors to 180 market sells). -/
def c1_trades : List Trade := List.replicate 180 ⟨1000000, 100, 10, "Buy"⟩

/-- concrete order book: thin ask side, heavy bid side (mirrors to a
sell-wall book). -/
def c1_book : Book := { a := [(101, 2)], b := [(99, 4)] }

/-- concrete context for the absolute-stage mirror witness: neutral regime on
both sides of the mirror. -/
def c1_wctx : Ctx :=
  { price := some 100
    sma10 := some (1002/10)
    sma50 := some 99
    atr := some (1/2) }

/-- concrete bull-regime context for the C2 counterexample: price 200,
SMA10 200.2 > SMA50 199, MACD 2 > signal 1, RSI 40, ATR 1; OFI z absent
(0), so the mirrored capitulation condition fails. -/
def c2_ctx : Ctx :=
  { price := some 200
    sma10 := some (2002/10)
    sma50 := some 199
    atr := some 1
    macd := some 2
    macd_sig := some 1
    rsi := some 40 }

/-- concrete trade tape for C2: 180 market sells of 10 contracts at 200. -/
def c2_trades : List Trade := List.replicate 180 ⟨2000000, 200, 10, "Sell"⟩

/-- concrete order book for C2: heavy ask side (sell wall), thin bid side. -/
def c2_book : Book := { a := [(201, 8)], b := [(199, 2)] }

/-- the capitulation scenario of the spec: bear regime with OFI z 2.5,
short-side liquidations 4,000,000 USD and OI change -1.0%. -/
def c2w_ctx : Ctx :=
  { price := some 100
    sma10 := some (999/10)
    sma50 := some (1005/10)
    atr := some (1/2)
    macd := some (-1)
    macd_sig := some 0
    rsi := some 60
    ofi_z := some (25/10)
    liq_short_usd := some 4000000
    oi_drop_pct := some (-1) }

/-- concrete long position for the exit-engine witness: entry 100,
TP 100.05, SL 99.99 — price 100 is simultaneously near TP and near SL. -/
def c3_pos : Position :=
  { side := "long"
    tp_price := some (10005/100)
    sl_price := some (9999/100)
    entry_price := some 100
    time := some 0 }

/-- concrete exit-engine context: price 100, ATR 1, MACD histogram turning
down (peak-out). -/
def c3_ctx : Ctx :=
  { price := some 100
    atr := some 1
    macd_hist := some (-1)
    macd_hist_prev := some 0 }

/-- concrete ATR history with flat volatility: 48 samples of 1 (median
quotient 1). -/
def c4_buf1 : List ℚ := List.replicate 48 1

/-- concrete ATR history with rising recent volatility: 36 samples of 1 then
12 samples of 2 (median quotient 2). -/
def c4_buf2 : List ℚ := List.replicate 36 1 ++ List.replicate 12 2

/-- concrete strong-sell edge metrics: OFI z -5, 10 consecutive sells. -/
def c5_met : EdgeMetrics := { ofi_z := -5, cons_buy := 0, cons_sell := 10 }

/-- concrete bucket series for the OFI z-score witness: values 1,2,3,4,100
(5 samples, MAD 1, raw z far beyond the clip). -/
def c7_buckets : List Bucket :=
  [⟨0, 1, 0⟩, ⟨1, 2, 0⟩, ⟨2, 3, 0⟩, ⟨3, 4, 0⟩, ⟨4, 100, 0⟩]

/-- per-tick flow values for the publication counterexample: tick index n. -/
def o9 : ℕ → ℚ := fun n => n

/-- per-tick lock-only values for the publication counterexample: tick
index n. -/
def b9 : ℕ → ℚ := fun n => n

/-- metrics mapping in which both direction-free flags are set: each one
votes for both LONG and SHORT, so both sides reach the 2-vote bar. -/
def c10_m : SigMetrics := { liq_cluster_ok := some true, doi_up_ok := some true }

/-- the metrics mapping with the liquidation-cluster flag removed. -/
def without_liq (m : SigMetrics) : SigMetrics := { m with liq_cluster_ok := none }

/-- the metrics mapping with the delta-OI flag removed. -/
def without_doi (m : SigMetrics) : SigMetrics := { m with doi_up_ok := none }

theorem mirrorCtx_price (ctx : Ctx) : (mirrorCtx ctx).price = ctx.price := rfl

theorem mirrorCtx_atr (ctx : Ctx) : (mirrorCtx ctx).atr = ctx.atr := rfl

theorem mirrorCtx_sma10 (ctx : Ctx) :
    (mirrorCtx ctx).sma10 = reflAt (ctx.price.getD 0) ctx.sma10 := rfl

theorem pyRound_ge_floor (x : ℚ) : Int.floor x ≤ pyRound x := by
  unfold pyRound
  dsimp only
  split_ifs <;> omega

theorem pyRound_le_floor_add_one (x : ℚ) : pyRound x ≤ Int.floor x + 1 := by
  unfold pyRound
  dsimp only
  split_ifs <;> omega

theorem pyRound_mono {x y : ℚ} (h : x ≤ y) : pyRound x ≤ pyRound y := by
  rcases lt_or_eq_of_le (Int.floor_le_floor h) with hf | hf
  · calc pyRound x ≤ Int.floor x + 1 := pyRound_le_floor_add_one x
    _ ≤ Int.floor y := by omega
    _ ≤ pyRound y := pyRound_ge_floor y
  · unfold pyRound
    dsimp only
    rw [hf]
    have hr : x - (Int.floor y : ℚ) ≤ y - (Int.floor y : ℚ) := by linarith
    split_ifs <;> first | omega | linarith

theorem on_trade_invariant (st : CVDState) (ts : ℤ) (side : String) (qty : ℚ)
    (hinv : st.seq_mkt_buys = 0 ∨ st.seq_mkt_sells = 0) :
    (on_trade st ts side qty).seq_mkt_buys = 0 ∨
      (on_trade st ts side qty).seq_mkt_sells = 0 := by
  unfold on_trade
  dsimp only
  split_ifs <;> simp_all

theorem cvd_fold_invariant (events : List (ℤ × String × ℚ)) (st : CVDState)
    (hinv : st.seq_mkt_buys = 0 ∨ st.seq_mkt_sells = 0) :
    (events.foldl (fun s e => on_trade s e.1 e.2.1 e.2.2) st).seq_mkt_buys = 0 ∨
      (events.foldl (fun s e => on_trade s e.1 e.2.1 e.2.2) st).seq_mkt_sells = 0 := by
  induction events generalizing st with
  | nil => exact hinv
  | cons e rest ih =>
    exact ih (on_trade st e.1 e.2.1 e.2.2) (on_trade_invariant st e.1 e.2.1 e.2.2 hinv)

theorem run_loop_count_same (start : ℤ) (body : ℤ → Bool) (n : ℕ) :
    run_loop_entry_count (some start) (List.replicate n start) body = (0, some start) := by
  induction n with
  | zero => rfl
  | succ k ih =>
    rw [List.replicate_succ]
    simp [run_loop_entry_count, run_loop_iter, ih]

/-- Claim C5 (code_bug evaluation): the cooldown-skip gating of run_loop.
With OFI z -5 and 10 consecutive sells, `_strong_flow_override` (computed at
main.py line 1422 with edge_votes still 0) is true, and the cooldown block
(lines 1879-1907) lets the tick enter even though the last entry was 0
minutes ago (dynamic cooldown 30), ADX is 0 (below the 22.0 floor) and the
OFI sign (negative) disagrees with the proposed LONG signal; with
`strong_flow` false the same inputs would block.  This contradicts the
claimed invariant that the cooldown is never overridden while ADX is below
the floor or the OFI sign disagrees with the signal direction. -/
theorem c5_cooldown_override_gating_bug :
    strong_flow_override c5_met 0 STRATEGY = true ∧
    cooldown_ok_run_loop c5_met 0 (some "LONG") 0 (strong_flow_override c5_met 0 STRATEGY)
      (some 0) 30 STRATEGY = true ∧
    cooldown_ok_run_loop c5_met 0 (some "LONG") 0 false (some 0) 30 STRATEGY = false ∧
    (0 : ℚ) < STRATEGY.cooldown_override_adx_min ∧
    c5_met.ofi_z < 0 := by
  with_unfolding_all decide

/-- Claim C6: one entry decision per closed-candle timestamp.  In the dedup
skeleton of run_loop, processing the same candle start any number of times
yields at most one entry decision, and an iteration that observes the same
start as the persisted last-handled-candle marker is a no-op for entry and
leaves the marker unchanged. -/
theorem c6_one_entry_decision_per_candle (marker : Option ℤ) (start : ℤ)
    (body : ℤ → Bool) (n : ℕ) :
    (run_loop_entry_count marker (List.replicate n start) body).1 ≤ 1 ∧
    run_loop_iter (some start) start body = (false, some start) := by
  constructor
  · cases n with
    | zero => simp [run_loop_entry_count]
    | succ k =>
      rw [List.replicate_succ]
      by_cases hm : marker = some start
      · simp [run_loop_entry_count, run_loop_iter, hm, run_loop_count_same start body k]
      · simp [run_loop_entry_count, run_loop_iter, hm, run_loop_count_same start body k]
        split <;> omega
  · simp [run_loop_iter]

/-- Claim C8: the CVD tracker's same-second consecutive counters are mutually
exclusive — after any sequence of on_trade calls, a positive buy streak
forces the sell streak to 0 and conversely. -/
theorem c8_cvd_seq_mutual_exclusion (ema_period : ℤ) (events : List (ℤ × String × ℚ)) :
    (0 < (cvd_run ema_period events).seq_mkt_buys →
      (cvd_run ema_period events).seq_mkt_sells = 0) ∧
    (0 < (cvd_run ema_period events).seq_mkt_sells →
      (cvd_run ema_period events).seq_mkt_buys = 0) := by
  have h := cvd_fold_invariant events (cvd_init ema_period) (Or.inl rfl)
  unfold cvd_run
  constructor <;> intro hpos <;> rcases h with h | h <;> first | exact h | omega

theorem c8_cvd_seq_mutual_exclusion_witness :
    0 < (cvd_run 20 [(1000, "Buy", 1), (1500, "Buy", 2)]).seq_mkt_buys ∧
    (cvd_run 20 [(1000, "Buy", 1), (1500, "Buy", 2)]).seq_mkt_sells = 0 := by
  refine ⟨by with_unfolding_all decide, ?_⟩
  exact (c8_cvd_seq_mutual_exclusion 20 [(1000, "Buy", 1), (1500, "Buy", 2)]).1
    (by with_unfolding_all decide)

/-- Claim C9 (counterexample): a reader of get_metrics_snapshot CAN observe a
partially updated mapping.  Because the first `self._metrics.update({...})`
of a recompute tick happens outside the mutex, the state reached after
init, update(0), publish(0), update(1) exposes flow values of tick 1 next to
lock-only values of tick 0 — not the published mapping of any single tick. -/
theorem c9_metrics_snapshot_counterexample :
    ¬ (∀ s : EngineState, EngineReach o9 b9 s → snapshot_well_formed o9 b9 s.metrics) := by
  intro hall
  have hreach : EngineReach o9 b9 ⟨⟨some (o9 1), some (b9 0)⟩, 1, .midTick⟩ :=
    EngineReach.step _ _
      (EngineReach.step _ _
        (EngineReach.step _ _ EngineReach.init
          (EngineStep.unlocked_update ⟨none, none⟩ 0))
        (EngineStep.locked_publish ⟨some (o9 0), none⟩ 0))
      (EngineStep.unlocked_update ⟨some (o9 0), some (b9 0)⟩ 1)
  rcases hall _ hreach with h | ⟨n, hn⟩
  · exact absurd (congrArg MetricsMap.flow_val h) (by simp)
  · have h1 : o9 1 = o9 n := by
      have := congrArg MetricsMap.flow_val hn
      simpa using this
    have h0 : b9 0 = b9 n := by
      have := congrArg MetricsMap.book_val hn
      simpa using this
    simp only [o9, b9, Nat.cast_inj] at h1 h0
    omega

/-- Claim C9 (amended): the locked copy-and-replace publication itself is
atomic — every state in which the writer is not between its unlocked update
and its locked publish (phase idle) carries either the initial empty mapping
or the complete mapping of one recompute tick. -/
theorem c9_metrics_snapshot_locked_publish (o b : ℕ → ℚ) (s : EngineState)
    (hreach : EngineReach o b s) :
    s.phase = WriterPhase.idle → snapshot_well_formed o b s.metrics := by
  induction hreach with
  | init => intro _; exact Or.inl rfl
  | step s s' hr hstep ih =>
    cases hstep with
    | unlocked_update m n => intro hidle; exact absurd hidle (by simp)
    | locked_publish m n => intro _; exact Or.inr ⟨n, rfl⟩

theorem c9_metrics_snapshot_locked_publish_witness :
    snapshot_well_formed (fun _ => 0) (fun _ => 0) engine_init.metrics :=
  c9_metrics_snapshot_locked_publish (fun _ => 0) (fun _ => 0) engine_init
    EngineReach.init rfl

/-- Claim C10: decide_signal checks the LONG votes before the SHORT votes and
returns LONG as soon as the LONG count reaches 2, so whenever both counts
reach 2 with the active-hours and regime gates passing the result is LONG;
and the liquidation-cluster and delta-OI-up flags each contribute exactly one
vote to both directions. -/
theorem c10_decide_signal_long_priority (m : SigMetrics)
    (hL : 2 ≤ long_votes m) (hS : 2 ≤ short_votes m) :
    decide_signal m true true = some "LONG" ∧
    (m.liq_cluster_ok = some true →
      long_votes m = long_votes (without_liq m) + 1 ∧
      short_votes m = short_votes (without_liq m) + 1) ∧
    (m.doi_up_ok = some true →
      long_votes m = long_votes (without_doi m) + 1 ∧
      short_votes m = short_votes (without_doi m) + 1) := by
  refine ⟨?_, ?_, ?_⟩
  · unfold decide_signal
    simp [hL]
  · intro hliq
    unfold long_votes short_votes without_liq
    rw [hliq]
    simp only [if_pos rfl]
    constructor <;> simp <;> omega
  · intro hdoi
    unfold long_votes short_votes without_doi
    rw [hdoi]
    simp only [if_pos rfl]
    constructor <;> simp <;> omega

theorem c10_decide_signal_long_priority_witness :
    decide_signal c10_m true true = some "LONG" ∧
    long_votes c10_m = long_votes (without_liq c10_m) + 1 := by
  have h := c10_decide_signal_long_priority c10_m (by with_unfolding_all decide)
    (by with_unfolding_all decide)
  exact ⟨h.1, (h.2.1 rfl).1⟩

/-- Claim C2 (counterexample to the SHORT half): decide_entry_guard_short has
no bull-regime hard block.  In the concrete bull-regime context c2_ctx
(SMA10 > SMA50 and MACD > signal) the mirrored capitulation condition fails,
yet the SHORT guard allows the entry, contradicting "the SHORT entry guard
rejects in a bull regime unless the mirrored capitulation condition holds". -/
theorem c2_bear_block_counterexample :
    spec_bull_regime c2_ctx = true ∧ is_capitulation_short c2_ctx = false ∧
    (decide_entry_guard_short c2_trades c2_book c2_ctx STRATEGY).1 = true := by
  with_unfolding_all decide

/-- Claim C2 (amended, the LONG half as stated): for every input that passes
the absolute MA/RSI stage of decide_entry_guard_long, a bear-regime context
is rejected with "Bear regime: long disabled" unless the capitulation
condition holds, in which case the guard allows with reason
"capitulation_long". -/
theorem c2_bear_regime_block_long (trades : List Trade) (book : Book) (ctx : Ctx)
    (S : StrategyConfig)
    (hbear : is_bear_regime ctx = true)
    (habs : guard_abs_reject_long ctx S = false)
    (hrsi : ¬ (ctx.rsi.getD (ctx.rsi14.getD 50) < S.rsi_long_min)) :
    decide_entry_guard_long trades book ctx S =
      (if is_capitulation_long ctx then (true, "capitulation_long")
       else (false, "Bear regime: long disabled")) := by
  unfold decide_entry_guard_long
  rw [habs, hbear]
  simp [hrsi]

theorem c2_bear_regime_block_long_witness :
    is_bear_regime c2w_ctx = true ∧
    guard_abs_reject_long c2w_ctx STRATEGY = false ∧
    ¬ (c2w_ctx.rsi.getD (c2w_ctx.rsi14.getD 50) < STRATEGY.rsi_long_min) ∧
    decide_entry_guard_long [] ⟨[], []⟩ c2w_ctx STRATEGY = (true, "capitulation_long") := by
  refine ⟨by with_unfolding_all decide, by with_unfolding_all decide,
    by with_unfolding_all decide, ?_⟩
  rw [c2_bear_regime_block_long [] ⟨[], []⟩ c2w_ctx STRATEGY (by with_unfolding_all decide)
    (by with_unfolding_all decide) (by with_unfolding_all decide)]
  with_unfolding_all decide

/-- Claim C3: the exit engine returns exactly one action per call, checking
near-TP early take profit before SL grace before time stop; whenever the
near-TP vote trigger and the SL-grace trigger hold simultaneously, the
near-TP branch fires (TP_ALL in range/neutral regime, TP_PART otherwise) and
SL_GRACE is not returned in that call. -/
theorem c3_exit_engine_priority (pos : Position) (ctx : Ctx) (book : Book)
    (trades : List Trade) (em : EdgeMetrics) (st : ExitState) (S : StrategyConfig)
    (now_sec : ℚ) (h l : Option ℚ)
    (hA : exit_near_tp_fires pos ctx book trades st S h l = true)
    (_hB : exit_sl_grace_cond pos ctx book em S = true) :
    ((evaluate pos ctx book trades em st S now_sec h l).action =
      if classify_regime ctx = "range" ∨ classify_regime ctx = "neutral"
      then "TP_ALL" else "TP_PART") ∧
    (evaluate pos ctx book trades em st S now_sec h l).action ≠ "SL_GRACE" := by
  unfold evaluate
  rw [hA]
  constructor
  · simp only [if_true]
    split <;> rfl
  · simp only [if_true]
    split <;> simp

theorem c3_exit_engine_priority_witness :
    exit_near_tp_fires c3_pos c3_ctx ⟨[], []⟩ [] {} STRATEGY none none = true ∧
    exit_sl_grace_cond c3_pos c3_ctx ⟨[], []⟩ {} STRATEGY = true ∧
    (evaluate c3_pos c3_ctx ⟨[], []⟩ [] {} {} STRATEGY 0 none none).action = "TP_ALL" ∧
    (evaluate c3_pos c3_ctx ⟨[], []⟩ [] {} {} STRATEGY 0 none none).action ≠ "SL_GRACE" := by
  have h := c3_exit_engine_priority c3_pos c3_ctx ⟨[], []⟩ [] {} {} STRATEGY 0 none none
    (by with_unfolding_all decide) (by with_unfolding_all decide)
  refine ⟨by with_unfolding_all decide, by with_unfolding_all decide, ?_, h.2⟩
  rw [h.1]
  with_unfolding_all decide

theorem ofi_zscore_eq (buckets : List Bucket) (clip : ℚ) :
    ofi_zscore buckets clip =
      if buckets.length < 5 then 0
      else if ofi_mad buckets < 1/1000000 then 0
      else min clip (max (-clip)
        ((6745/10000) * (((ofi_sub_window buckets).getLast?).getD 0 -
          npMedian (ofi_sub_window buckets)) / ofi_mad buckets)) := by
  unfold ofi_zscore ofi_mad ofi_sub_window
  dsimp only
  simp only [ofi_series, List.length_map]

/-- Claim C7: FlowBuckets.ofi_zscore returns exactly 0 with fewer than 5
one-second buckets, returns exactly 0 when the MAD of the selected
30/60/120-sample sub-window is below 1e-6, otherwise returns
0.6745 * (last - median) / MAD clipped to the configured bound, and in all
cases |ofi_zscore| <= clip for a non-negative clip (default 6). -/
theorem c7_ofi_zscore_spec (buckets : List Bucket) (clip : ℚ) :
    (buckets.length < 5 → ofi_zscore buckets clip = 0) ∧
    (¬ buckets.length < 5 → ofi_mad buckets < 1/1000000 → ofi_zscore buckets clip = 0) ∧
    (¬ buckets.length < 5 → ¬ ofi_mad buckets < 1/1000000 →
      ofi_zscore buckets clip =
        min clip (max (-clip)
          ((6745/10000) * (((ofi_sub_window buckets).getLast?).getD 0 -
            npMedian (ofi_sub_window buckets)) / ofi_mad buckets))) ∧
    (0 ≤ clip → |ofi_zscore buckets clip| ≤ clip) := by
  refine ⟨?_, ?_, ?_, ?_⟩
  · intro h5
    rw [ofi_zscore_eq, if_pos h5]
  · intro h5 hmad
    rw [ofi_zscore_eq, if_neg h5, if_pos hmad]
  · intro h5 hmad
    rw [ofi_zscore_eq, if_neg h5, if_neg hmad]
  · intro hclip
    rw [ofi_zscore_eq]
    split_ifs with h1 h2
    · simpa using hclip
    · simpa using hclip
    · rw [abs_le]
      constructor
      · exact le_min (by linarith) (le_max_left _ _)
      · exact min_le_left _ _

theorem c7_ofi_zscore_spec_witness :
    ofi_zscore [⟨0, 1, 0⟩, ⟨1, 2, 0⟩] 6 = 0 ∧
    ofi_zscore (List.replicate 10 ⟨0, 3, 0⟩) 6 = 0 ∧
    ofi_zscore c7_buckets 6 =
      min 6 (max (-6)
        ((6745/10000) * (((ofi_sub_window c7_buckets).getLast?).getD 0 -
          npMedian (ofi_sub_window c7_buckets)) / ofi_mad c7_buckets)) ∧
    |ofi_zscore c7_buckets 6| ≤ 6 := by
  refine ⟨(c7_ofi_zscore_spec [⟨0, 1, 0⟩, ⟨1, 2, 0⟩] 6).1 (by with_unfolding_all decide),
    (c7_ofi_zscore_spec (List.replicate 10 ⟨0, 3, 0⟩) 6).2.1
      (by with_unfolding_all decide) (by with_unfolding_all decide),
    (c7_ofi_zscore_spec c7_buckets 6).2.2.1
      (by with_unfolding_all decide) (by with_unfolding_all decide),
    (c7_ofi_zscore_spec c7_buckets 6).2.2.2 (by with_unfolding_all decide)⟩

/-- Claim C1 (counterexample): the LONG and SHORT entry guards are not mirror
images.  In the concrete bear-regime context c1_ctx the LONG guard rejects
through the bear-regime hard block, while the SHORT guard — which has no
bull-regime counterpart of that block — allows the mirrored context with the
mirrored tape and book.  The allow/reject decisions differ. -/
theorem c1_entry_guard_mirror_counterexample :
    ¬ ((decide_entry_guard_long c1_trades c1_book c1_ctx STRATEGY).1 =
       (decide_entry_guard_short (c1_trades.map mirrorTrade) (mirrorBook c1_book)
         (mirrorCtx c1_ctx) STRATEGY).1) := by
  with_unfolding_all decide

theorem get_guard_ma_STRATEGY (c : Ctx) (s : ℚ) :
    (get_guard_ma_and_name c s STRATEGY).1 = c.sma10.getD s := rfl

theorem reflAt_getD (p : ℚ) (o : Option ℚ) :
    (reflAt p o).getD ((reflAt p o).getD p) = 2 * p - o.getD (o.getD p) := by
  cases o <;> simp [reflAt] <;> ring

/-- Claim C1 (amended): what survives of the mirror symmetry is the absolute
MA-buffer stage.  For every context whose regime classification is range or
neutral and preserved by the mirror, LONG's close < guardMA - k*ATR rejection
test on the context coincides with SHORT's close > guardMA + k*ATR rejection
test on the mirrored context.  The full guards are not mirror-symmetric: the
bear-regime block, the RSI bounds 55/50 and the trend-specific toggles are
one-sided. -/
theorem c1_entry_guard_mirror_abs_stage (ctx : Ctx)
    (hreg : classify_regime ctx = "neutral" ∨ classify_regime ctx = "range")
    (hmir : classify_regime (mirrorCtx ctx) = classify_regime ctx) :
    guard_abs_reject_long ctx STRATEGY = guard_abs_reject_short (mirrorCtx ctx) STRATEGY := by
  unfold guard_abs_reject_long guard_abs_reject_short
  dsimp only
  rw [hmir]
  rcases hreg with h | h <;> rw [h] <;>
    simp only [get_guard_ma_STRATEGY, mirrorCtx_price, mirrorCtx_atr, mirrorCtx_sma10,
      reflAt_getD] <;>
    simp [STRATEGY, decide_eq_decide] <;>
    constructor <;> intro <;> linarith

theorem c1_entry_guard_mirror_abs_stage_witness :
    (classify_regime c1_wctx = "neutral" ∨ classify_regime c1_wctx = "range") ∧
    classify_regime (mirrorCtx c1_wctx) = classify_regime c1_wctx ∧
    guard_abs_reject_long c1_wctx STRATEGY =
      guard_abs_reject_short (mirrorCtx c1_wctx) STRATEGY := by
  refine ⟨Or.inl (by with_unfolding_all decide), by with_unfolding_all decide, ?_⟩
  exact c1_entry_guard_mirror_abs_stage c1_wctx (Or.inl (by with_unfolding_all decide))
    (by with_unfolding_all decide)

theorem dyn_cd_clip (b : ℤ) (r : ℚ) :
    5 ≤ dyn_cd_of_ratio b r ∧ dyn_cd_of_ratio b r ≤ 30 := by
  unfold dyn_cd_of_ratio
  exact ⟨le_max_left 5 _, max_le (by norm_num) (min_le_left _ _)⟩

theorem dyn_cd_mono {b : ℤ} (hb : 0 ≤ b) {r1 r2 : ℚ} (hr : r1 ≤ r2) :
    dyn_cd_of_ratio b r1 ≤ dyn_cd_of_ratio b r2 := by
  unfold dyn_cd_of_ratio
  have hm : (b : ℚ) * r1 ≤ (b : ℚ) * r2 :=
    mul_le_mul_of_nonneg_left hr (by exact_mod_cast hb)
  exact max_le_max le_rfl (min_le_min le_rfl (pyRound_mono hm))

/-- Claim C4 (counterexample): the dynamic cooldown does not decrease in the
short/long ATR-median quotient — it is the product base * quotient.  Between
the flat history c4_buf1 (quotient 1, cooldown 6) and the
rising-volatility history c4_buf2 (quotient 2, cooldown 12), the quotient
increases but the cooldown increases too, and does not sit at the 5-minute
floor — refuting "increasing the ratio strictly decreases the cooldown (or
holds it at the floor)". -/
theorem c4_cooldown_monotonicity_counterexample :
    atr_ratio_run_loop c4_buf1 1 < atr_ratio_run_loop c4_buf2 1 ∧
    ¬ (dyn_cooldown_run_loop c4_buf2 1 STRATEGY < dyn_cooldown_run_loop c4_buf1 1 STRATEGY ∨
       dyn_cooldown_run_loop c4_buf2 1 STRATEGY = 5) := by
  with_unfolding_all decide

/-- Claim C4 (amended): the dynamic cooldown of run_loop is clipped to the
configured [5, 30] minute band and is monotone NON-DECREASING in the
short/long ATR-median quotient: a larger quotient (recent volatility up
relative to baseline) weakly lengthens the cooldown, a smaller one weakly
shortens it. -/
theorem c4_cooldown_clip_and_monotone (buf1 buf2 : List ℚ) (a1 a2 : ℚ)
    (hr : atr_ratio_run_loop buf1 a1 ≤ atr_ratio_run_loop buf2 a2) :
    (5 ≤ dyn_cooldown_run_loop buf1 a1 STRATEGY ∧
      dyn_cooldown_run_loop buf1 a1 STRATEGY ≤ 30) ∧
    dyn_cooldown_run_loop buf1 a1 STRATEGY ≤ dyn_cooldown_run_loop buf2 a2 STRATEGY := by
  unfold dyn_cooldown_run_loop
  exact ⟨dyn_cd_clip _ _, dyn_cd_mono (by with_unfolding_all decide) hr⟩

theorem c4_cooldown_clip_and_monotone_witness :
    atr_ratio_run_loop c4_buf1 1 ≤ atr_ratio_run_loop c4_buf2 1 ∧
    (5 ≤ dyn_cooldown_run_loop c4_buf1 1 STRATEGY ∧
      dyn_cooldown_run_loop c4_buf1 1 STRATEGY ≤ 30) ∧
    dyn_cooldown_run_loop c4_buf1 1 STRATEGY ≤ dyn_cooldown_run_loop c4_buf2 1 STRATEGY := by
  refine ⟨by with_unfolding_all decide, ?_⟩
  exact c4_cooldown_clip_and_monotone c4_buf1 c4_buf2 1 1 (by with_unfolding_all decide)

end KBot
